import Mathlib

/-!
Shallow embedding of the pixeldrain backend facade
(backend/pixeldrain/pixeldrain.go).

The facade functions (NewObject, Put, Mkdir, Move, DirMove, About,
SetModTime, Hash) translate outcomes of low-level remote calls
(stat, put, update, mkdir, rename, userInfo — implemented in the
api-client file, outside these sources) into the filesystem error
taxonomy and into Object values.  We embed each facade function as a
pure function parameterised on the outcome of the underlying remote
calls, and record the remote calls it issues as an explicit trace,
so that "issues no remote call" and "upload first, metadata second"
are observable facts of the embedding.

Go `int64` fields and `time.Time` values are modelled as `Int`
(no arithmetic here approaches 2^63, and times are opaque data
to all of these functions).
-/

namespace Pixeldrain

/-- Errors produced by the low-level api client: `errNotFound`,
`errExists` are the two sentinel errors the facade compares against
(`err == errNotFound`, `err == errExists` in the Go source); every
other api or transport failure is carried as `other` with its
message. -/
inductive ApiError where
  | errNotFound
  | errExists
  | other (msg : String)
deriving DecidableEq

/-- Errors of the rclone `fs` error taxonomy as the facade returns
them.  `wrapped msg e` models `fmt.Errorf(msg+": %w", e)`;
`passthrough e` models `return err` of an api error unchanged. -/
inductive Err where
  | errorObjectNotFound
  | errorDirNotFound
  | errorIsDir
  | errorCantMove
  | errorDirExists
  | errUnsupported
  | wrapped (msg : String) (e : ApiError)
  | passthrough (e : ApiError)
deriving DecidableEq

/-- FilesystemNode: one entry of the remote tree, fields as used by
the facade (`Type`, `Path`, `Modified`, `FileSize`, `FileType`,
`SHA256Sum`).  The Go field `Type` is renamed `type` because `Type`
is a Lean keyword. -/
structure FilesystemNode where
  type : String
  Path : String
  Modified : Int
  FileSize : Int
  FileType : String
  SHA256Sum : String
deriving DecidableEq, Inhabited

/-- FilesystemPath: the stat result — ancestor trace `Path`, index
`BaseIndex` of the target inside it, and the target's `Children`. -/
structure FilesystemPath where
  Path : List FilesystemNode
  BaseIndex : Nat
  Children : List FilesystemNode
deriving DecidableEq

/-- Object: the facade-level entity of the Go source — the wrapped
node `base` together with the stat result (`path`, `children`) it
was resolved from. -/
structure Object where
  base : FilesystemNode
  path : List FilesystemNode
  children : List FilesystemNode
deriving DecidableEq, Inhabited

/-- Remote calls the facade can issue, recorded as a trace. -/
inductive RemoteCall where
  | putCall (path : String)
  | updateCall (path : String) (modified : Int)
  | renameCall (src dst : String)
deriving DecidableEq

/-- Modelled from the spec: `pathToObject` lives in the api-client
file, which is not among these sources.  Per the spec's data model,
the Object wraps exactly the target node `Path[BaseIndex]` as `base`
together with the stat result it was resolved from (`path`,
`children`). -/
def pathToObject (fsp : FilesystemPath) : Object :=
  { base := fsp.Path.getD fsp.BaseIndex default
    path := fsp.Path
    children := fsp.Children }

/-- Modelled from the spec: `nodeToObject` lives in the api-client
file, which is not among these sources.  Per the spec's data model,
it wraps a single node (with no stat-result context) as an Object. -/
def nodeToObject (node : FilesystemNode) : Object :=
  { base := node, path := [], children := [] }

/-- NewObject (pixeldrain.go lines 195-208), parameterised on the
outcome of `f.stat(ctx, remote)`: `errNotFound` maps to
ErrorObjectNotFound, other stat errors propagate, a target of type
"dir" maps to ErrorIsDir, and otherwise the stat result is wrapped
by `pathToObject`. -/
def NewObject (statResult : Except ApiError FilesystemPath) : Except Err Object :=
  match statResult with
  | Except.error ApiError.errNotFound => Except.error Err.errorObjectNotFound
  | Except.error e => Except.error (Err.passthrough e)
  | Except.ok fsp =>
    if (fsp.Path.getD fsp.BaseIndex default).type = "dir" then
      Except.error Err.errorIsDir
    else
      Except.ok (pathToObject fsp)

/-- Put (pixeldrain.go lines 215-233), parameterised on the api
client's `put` and `update` calls.  The upload response node is
discarded (`_, err := f.put(...)` in the source); on upload success
a second call updates the `modified` field to the source's modTime,
and the object returned is built from the update response. -/
def Put (put : String → Except ApiError FilesystemNode)
    (update : String → Int → Except ApiError FilesystemNode)
    (srcRemote : String) (srcModTime : Int) :
    Except Err Object × List RemoteCall :=
  match put srcRemote with
  | Except.error e =>
      (Except.error (Err.wrapped "failed to put object" e),
       [RemoteCall.putCall srcRemote])
  | Except.ok _ =>
    match update srcRemote srcModTime with
    | Except.error e =>
        (Except.error (Err.passthrough e),
         [RemoteCall.putCall srcRemote, RemoteCall.updateCall srcRemote srcModTime])
    | Except.ok fsp =>
        (Except.ok (nodeToObject fsp),
         [RemoteCall.putCall srcRemote, RemoteCall.updateCall srcRemote srcModTime])

/-- Mkdir (pixeldrain.go lines 236-247), parameterised on the
outcome of `f.mkdir(ctx, dir)`: `errNotFound` maps to
ErrorDirNotFound, `errExists` is swallowed (success), any other
outcome (nil or another error) is returned unchanged. -/
def Mkdir (mkdirResult : Option ApiError) : Option Err :=
  match mkdirResult with
  | some ApiError.errNotFound => some Err.errorDirNotFound
  | some ApiError.errExists => none
  | some e => some (Err.passthrough e)
  | none => none

/-- The source argument of Move: either an Object of this adapter
(the type assertion `src.(*Object)` succeeds) or an object of a
different backend type (the assertion fails). -/
inductive SrcObject where
  | native (o : Object)
  | foreign (remote : String)
deriving DecidableEq

/-- Move (pixeldrain.go lines 320-338), parameterised on the outcome
of `f.rename`: a foreign source is rejected as ErrorCantMove before
any remote call; `errNotFound` from rename maps to ErrorCantMove;
any other rename error is wrapped as a generic failure; on success
the source Object is returned with only `base.Path` set to the
destination. -/
def Move (rename : String → String → Option ApiError)
    (src : SrcObject) (remote : String) :
    Except Err Object × List RemoteCall :=
  match src with
  | SrcObject.foreign _ => (Except.error Err.errorCantMove, [])
  | SrcObject.native srcObj =>
    let trace := [RemoteCall.renameCall srcObj.base.Path remote]
    match rename srcObj.base.Path remote with
    | some ApiError.errNotFound => (Except.error Err.errorCantMove, trace)
    | some e => (Except.error (Err.wrapped "failed to rename file" e), trace)
    | none =>
        (Except.ok { srcObj with base := { srcObj.base with Path := remote } },
         trace)

/-- DirMove (pixeldrain.go lines 354-365), parameterised on the
outcome of `f.rename`: `errNotFound` maps to ErrorDirNotFound,
`errExists` to ErrorDirExists, any other outcome (nil or another
error) is returned unchanged. -/
def DirMove (rename : String → String → Option ApiError)
    (srcRemote dstRemote : String) :
    Option Err × List RemoteCall :=
  let trace := [RemoteCall.renameCall srcRemote dstRemote]
  match rename srcRemote dstRemote with
  | some ApiError.errNotFound => (some Err.errorDirNotFound, trace)
  | some ApiError.errExists => (some Err.errorDirExists, trace)
  | some e => (some (Err.passthrough e), trace)
  | none => (none, trace)

/-- Subscription data of the user-info response, fields as used by
About. -/
structure Subscription where
  Name : String
  StorageSpace : Int
deriving DecidableEq

/-- UserInfo: the account-info response, fields as used by About. -/
structure UserInfo where
  Username : String
  subscription : Subscription
  StorageSpaceUsed : Int
deriving DecidableEq

/-- Usage record returned by About (`fs.Usage` with the three fields
the source populates). -/
structure Usage where
  Used : Int
  Total : Int
  Free : Int
deriving DecidableEq

/-- About (pixeldrain.go lines 373-390), parameterised on the
outcome of `f.userInfo(ctx)`: a user-info failure is wrapped; the
unlimited sentinel -1 for the storage limit is replaced by 1e15
(1 PB); the usage record is then built with
Used = StorageSpaceUsed, Total = StorageSpace and
Free = StorageSpaceUsed - StorageSpace, exactly as the source
computes them. -/
def About (userInfo : Except ApiError UserInfo) : Except Err Usage :=
  match userInfo with
  | Except.error e => Except.error (Err.wrapped "failed to read user info" e)
  | Except.ok user =>
    let storageSpace : Int :=
      if user.subscription.StorageSpace = -1 then 10 ^ 15
      else user.subscription.StorageSpace
    Except.ok
      { Used := user.StorageSpaceUsed
        Total := storageSpace
        Free := user.StorageSpaceUsed - storageSpace }

/-- SetModTime (pixeldrain.go lines 398-406), parameterised on the
outcome of `o.fs.update`: only when the update succeeds is the
in-memory `base.Modified` field set to the new time; the update
error (or nil) is returned unchanged.  The result pairs the
(possibly updated) Object with the returned error. -/
def SetModTime (update : String → Int → Except ApiError FilesystemNode)
    (o : Object) (modTime : Int) : Object × Option Err :=
  match update o.base.Path modTime with
  | Except.error e => (o, some (Err.passthrough e))
  | Except.ok _ => ({ o with base := { o.base with Modified := modTime } }, none)

/-- Hash types of the rclone hash registry that a caller can request
(the source only distinguishes SHA256 from everything else). -/
inductive HashType where
  | MD5
  | SHA1
  | SHA256
  | CRC32
  | Whirlpool
deriving DecidableEq

/-- Hash (pixeldrain.go lines 450-455): any type other than SHA256
yields the empty string with hash.ErrUnsupported; SHA256 yields the
node's cached SHA256Sum. -/
def Hash (o : Object) (t : HashType) : String × Option Err :=
  if t ≠ HashType.SHA256 then ("", some Err.errUnsupported)
  else (o.base.SHA256Sum, none)

/-! Concrete sample values used by the witness theorems. -/

/-- Sample file node. -/
def fileNode : FilesystemNode :=
  { type := "file", Path := "docs/a.txt", Modified := 1700000000000
    FileSize := 42, FileType := "text/plain", SHA256Sum := "abc123" }

/-- Sample directory node. -/
def dirNode : FilesystemNode :=
  { type := "dir", Path := "docs", Modified := 0
    FileSize := 0, FileType := "", SHA256Sum := "" }

/-- Sample stat result resolving a file (ancestor dir, then target). -/
def sampleStat : FilesystemPath :=
  { Path := [dirNode, fileNode], BaseIndex := 1, Children := [] }

/-- Sample stat result resolving a directory. -/
def dirStat : FilesystemPath :=
  { Path := [dirNode], BaseIndex := 0, Children := [fileNode] }

/-- Sample facade object for the file. -/
def sampleObject : Object := pathToObject sampleStat

/-- Sample object after a successful Move to "moved.txt". -/
def movedObject : Object :=
  { sampleObject with base := { sampleObject.base with Path := "moved.txt" } }

/-- Rename oracle that always reports the source missing. -/
def renameNF : String → String → Option ApiError := fun _ _ => some ApiError.errNotFound

/-- Rename oracle that always reports the destination existing. -/
def renameEX : String → String → Option ApiError := fun _ _ => some ApiError.errExists

/-- Rename oracle that always succeeds. -/
def renameOK : String → String → Option ApiError := fun _ _ => none

/-- Upload oracle that succeeds, returning a node at the uploaded path. -/
def putOK : String → Except ApiError FilesystemNode :=
  fun p => Except.ok { fileNode with Path := p }

/-- Upload oracle that fails with a transport error. -/
def putFail : String → Except ApiError FilesystemNode :=
  fun _ => Except.error (ApiError.other "io")

/-- Metadata-update oracle that succeeds, returning the node with the
new modification time. -/
def updOK : String → Int → Except ApiError FilesystemNode :=
  fun p m => Except.ok { fileNode with Path := p, Modified := m }

/-- Metadata-update oracle that fails. -/
def updFail : String → Int → Except ApiError FilesystemNode :=
  fun _ _ => Except.error (ApiError.other "boom")

/-- Sample account with a finite storage limit. -/
def limitedUser : UserInfo :=
  { Username := "u", subscription := { Name := "Free plan", StorageSpace := 1000 }
    StorageSpaceUsed := 100 }

/-- Sample account with the unlimited-storage sentinel. -/
def unlimitedUser : UserInfo :=
  { Username := "u", subscription := { Name := "Prime", StorageSpace := -1 }
    StorageSpaceUsed := 7 }

/-! Theorems settling the claims. -/

/-- C1: the claim asserts Free = Total - Used and Free ≥ 0 whenever
used ≤ total.  The code computes
`user.StorageSpaceUsed - user.Subscription.StorageSpace`
(used - total): at used = 100, total = 1000, About returns
Free = -900, which is negative and is not total - used = 900,
refuting the claim at this input. -/
theorem About_free_negated_at_failing_input :
    About (Except.ok limitedUser) =
      Except.ok { Used := 100, Total := 1000, Free := -900 } ∧
    ¬ ((-900 : Int) = 1000 - 100 ∧ 0 ≤ (-900 : Int)) :=
  ⟨rfl, by decide⟩

/-- C2: NewObject maps a not-found stat outcome to
ErrorObjectNotFound, a target node of type "dir" to ErrorIsDir, and
otherwise returns the Object wrapping the target node
Path[BaseIndex] together with the stat result's path and children. -/
theorem NewObject_cases (statResult : Except ApiError FilesystemPath) :
    (statResult = Except.error ApiError.errNotFound →
      NewObject statResult = Except.error Err.errorObjectNotFound) ∧
    (∀ fsp, statResult = Except.ok fsp →
      (((fsp.Path.getD fsp.BaseIndex default).type = "dir" →
          NewObject statResult = Except.error Err.errorIsDir) ∧
       ((fsp.Path.getD fsp.BaseIndex default).type ≠ "dir" →
          NewObject statResult = Except.ok
            { base := fsp.Path.getD fsp.BaseIndex default
              path := fsp.Path
              children := fsp.Children }))) := by
  refine ⟨fun h => by subst h; rfl, fun fsp h => ⟨fun ht => ?_, fun ht => ?_⟩⟩
  · subst h; simp only [NewObject]; rw [if_pos ht]
  · subst h; simp only [NewObject]; rw [if_neg ht]; rfl

/-- C2 witness: concrete evaluations of the three branches. -/
theorem NewObject_cases_witness :
    NewObject (Except.error ApiError.errNotFound) = Except.error Err.errorObjectNotFound ∧
    NewObject (Except.ok dirStat) = Except.error Err.errorIsDir ∧
    NewObject (Except.ok sampleStat) =
      Except.ok { base := fileNode, path := [dirNode, fileNode], children := [] } := by
  refine ⟨(NewObject_cases _).1 rfl, ?_, ?_⟩
  · exact ((NewObject_cases (Except.ok dirStat)).2 dirStat rfl).1 (by decide)
  · have h := ((NewObject_cases (Except.ok sampleStat)).2 sampleStat rfl).2 (by decide)
    simpa [sampleStat, dirNode, fileNode] using h

/-- C3: a rename outcome of errNotFound maps to ErrorCantMove in
Move but to ErrorDirNotFound in DirMove; a rename outcome of
errExists maps to ErrorDirExists in DirMove but is surfaced by Move
only as a generic wrapped failure. -/
theorem Move_DirMove_error_mapping
    (rename : String → String → Option ApiError)
    (srcObj : Object) (remote srcRemote dstRemote : String) :
    (rename srcObj.base.Path remote = some ApiError.errNotFound →
      (Move rename (SrcObject.native srcObj) remote).1 = Except.error Err.errorCantMove) ∧
    (rename srcRemote dstRemote = some ApiError.errNotFound →
      (DirMove rename srcRemote dstRemote).1 = some Err.errorDirNotFound) ∧
    (rename srcRemote dstRemote = some ApiError.errExists →
      (DirMove rename srcRemote dstRemote).1 = some Err.errorDirExists) ∧
    (rename srcObj.base.Path remote = some ApiError.errExists →
      (Move rename (SrcObject.native srcObj) remote).1 =
        Except.error (Err.wrapped "failed to rename file" ApiError.errExists)) := by
  refine ⟨fun h => ?_, fun h => ?_, fun h => ?_, fun h => ?_⟩ <;>
    simp [Move, DirMove, h]

/-- C3 witness: the four mappings at concrete rename oracles. -/
theorem Move_DirMove_error_mapping_witness :
    (Move renameNF (SrcObject.native sampleObject) "dst").1 = Except.error Err.errorCantMove ∧
    (DirMove renameNF "s" "d").1 = some Err.errorDirNotFound ∧
    (DirMove renameEX "s" "d").1 = some Err.errorDirExists ∧
    (Move renameEX (SrcObject.native sampleObject) "dst").1 =
      Except.error (Err.wrapped "failed to rename file" ApiError.errExists) :=
  ⟨(Move_DirMove_error_mapping renameNF sampleObject "dst" "s" "d").1 rfl,
   (Move_DirMove_error_mapping renameNF sampleObject "dst" "s" "d").2.1 rfl,
   (Move_DirMove_error_mapping renameEX sampleObject "dst" "s" "d").2.2.1 rfl,
   (Move_DirMove_error_mapping renameEX sampleObject "dst" "s" "d").2.2.2 rfl⟩

/-- C4: Mkdir swallows errExists (success), maps errNotFound to
ErrorDirNotFound, and swallows no other remote error. -/
theorem Mkdir_cases (e : ApiError) :
    Mkdir (some ApiError.errExists) = none ∧
    Mkdir (some ApiError.errNotFound) = some Err.errorDirNotFound ∧
    (e ≠ ApiError.errExists → Mkdir (some e) ≠ none) := by
  refine ⟨rfl, rfl, fun h => ?_⟩
  cases e <;> simp [Mkdir] at h ⊢

/-- C4 witness: the three facts at a concrete transport error. -/
theorem Mkdir_cases_witness :
    Mkdir (some ApiError.errExists) = none ∧
    Mkdir (some ApiError.errNotFound) = some Err.errorDirNotFound ∧
    Mkdir (some (ApiError.other "transport failure")) ≠ none :=
  ⟨(Mkdir_cases (ApiError.other "transport failure")).1,
   (Mkdir_cases (ApiError.other "transport failure")).2.1,
   (Mkdir_cases (ApiError.other "transport failure")).2.2 (by decide)⟩

/-- C5: Put issues the upload call first and the metadata-update
call (with the source's modification time) second; on success the
returned Object is built from the metadata-update response node —
the upload response node n never influences the result — and a
failure of either call yields an error and no Object. -/
theorem Put_upload_then_update
    (put : String → Except ApiError FilesystemNode)
    (update : String → Int → Except ApiError FilesystemNode)
    (srcRemote : String) (srcModTime : Int) :
    (∀ e, put srcRemote = Except.error e →
      Put put update srcRemote srcModTime =
        (Except.error (Err.wrapped "failed to put object" e),
         [RemoteCall.putCall srcRemote])) ∧
    (∀ n e, put srcRemote = Except.ok n →
      update srcRemote srcModTime = Except.error e →
      Put put update srcRemote srcModTime =
        (Except.error (Err.passthrough e),
         [RemoteCall.putCall srcRemote, RemoteCall.updateCall srcRemote srcModTime])) ∧
    (∀ n m, put srcRemote = Except.ok n →
      update srcRemote srcModTime = Except.ok m →
      Put put update srcRemote srcModTime =
        (Except.ok (nodeToObject m),
         [RemoteCall.putCall srcRemote, RemoteCall.updateCall srcRemote srcModTime])) := by
  refine ⟨fun e h => ?_, fun n e h h2 => ?_, fun n m h h2 => ?_⟩
  · simp [Put, h]
  · simp [Put, h, h2]
  · simp [Put, h, h2]

/-- C5 witness: the three outcomes at concrete oracles. -/
theorem Put_upload_then_update_witness :
    Put putFail updOK "a.txt" 5 =
      (Except.error (Err.wrapped "failed to put object" (ApiError.other "io")),
       [RemoteCall.putCall "a.txt"]) ∧
    Put putOK updFail "a.txt" 5 =
      (Except.error (Err.passthrough (ApiError.other "boom")),
       [RemoteCall.putCall "a.txt", RemoteCall.updateCall "a.txt" 5]) ∧
    Put putOK updOK "a.txt" 5 =
      (Except.ok (nodeToObject { fileNode with Path := "a.txt", Modified := 5 }),
       [RemoteCall.putCall "a.txt", RemoteCall.updateCall "a.txt" 5]) :=
  ⟨(Put_upload_then_update putFail updOK "a.txt" 5).1 _ rfl,
   (Put_upload_then_update putOK updFail "a.txt" 5).2.1 _ _ rfl rfl,
   (Put_upload_then_update putOK updOK "a.txt" 5).2.2 _ _ rfl rfl⟩

/-- C6: when Move succeeds, the returned (in-place mutated) Object
has its base node's Path set to the destination, while the base
node's type, Modified, FileSize, FileType and SHA256Sum and the
Object's path and children slices are unchanged. -/
theorem Move_updates_only_base_path
    (rename : String → String → Option ApiError)
    (srcObj r : Object) (remote : String)
    (h : (Move rename (SrcObject.native srcObj) remote).1 = Except.ok r) :
    r.base.Path = remote ∧
    r.base.type = srcObj.base.type ∧
    r.base.Modified = srcObj.base.Modified ∧
    r.base.FileSize = srcObj.base.FileSize ∧
    r.base.FileType = srcObj.base.FileType ∧
    r.base.SHA256Sum = srcObj.base.SHA256Sum ∧
    r.path = srcObj.path ∧
    r.children = srcObj.children := by
  revert h
  simp only [Move]
  cases hr : rename srcObj.base.Path remote with
  | none => intro h; cases h; simp
  | some e => cases e <;> simp

/-- C6 witness: the conclusion at a concrete successful move. -/
theorem Move_updates_only_base_path_witness :
    movedObject.base.Path = "moved.txt" ∧
    movedObject.base.type = sampleObject.base.type ∧
    movedObject.base.Modified = sampleObject.base.Modified ∧
    movedObject.base.FileSize = sampleObject.base.FileSize ∧
    movedObject.base.FileType = sampleObject.base.FileType ∧
    movedObject.base.SHA256Sum = sampleObject.base.SHA256Sum ∧
    movedObject.path = sampleObject.path ∧
    movedObject.children = sampleObject.children :=
  Move_updates_only_base_path renameOK sampleObject movedObject "moved.txt" rfl

/-- C7: a source object of a different backend type is rejected as
ErrorCantMove with an empty remote-call trace — no rename (or any
other) call is issued. -/
theorem Move_foreign_no_call (rename : String → String → Option ApiError)
    (srcRemote remote : String) :
    Move rename (SrcObject.foreign srcRemote) remote =
      (Except.error Err.errorCantMove, []) := rfl

/-- C8: when the account's storage limit equals the unlimited
sentinel -1, About substitutes 10^15 (1 PB) as the total, so the
returned total is finite. -/
theorem About_unlimited_sentinel (user : UserInfo)
    (h : user.subscription.StorageSpace = -1) :
    About (Except.ok user) =
      Except.ok { Used := user.StorageSpaceUsed
                  Total := 10 ^ 15
                  Free := user.StorageSpaceUsed - 10 ^ 15 } := by
  simp [About, h]

/-- C8 witness: the substitution at a concrete unlimited account. -/
theorem About_unlimited_sentinel_witness :
    About (Except.ok unlimitedUser) =
      Except.ok { Used := 7, Total := 10 ^ 15, Free := 7 - 10 ^ 15 } :=
  About_unlimited_sentinel unlimitedUser rfl

/-- C9: Hash returns the node's cached SHA256Sum for SHA256 and the
empty string with the unsupported-capability error for every other
hash type. -/
theorem Hash_sha256_only (o : Object) (t : HashType) :
    Hash o HashType.SHA256 = (o.base.SHA256Sum, none) ∧
    (t ≠ HashType.SHA256 → Hash o t = ("", some Err.errUnsupported)) := by
  refine ⟨rfl, fun h => ?_⟩
  simp [Hash, h]

/-- C9 witness: SHA256 and MD5 requests on a concrete object. -/
theorem Hash_sha256_only_witness :
    Hash sampleObject HashType.SHA256 = (sampleObject.base.SHA256Sum, none) ∧
    Hash sampleObject HashType.MD5 = ("", some Err.errUnsupported) :=
  ⟨(Hash_sha256_only sampleObject HashType.MD5).1,
   (Hash_sha256_only sampleObject HashType.MD5).2 (by decide)⟩

/-- C10: SetModTime sets the in-memory base.Modified field to the
new time exactly when the remote update succeeds; when the update
fails the Object is returned entirely unchanged together with the
error. -/
theorem SetModTime_frame
    (update : String → Int → Except ApiError FilesystemNode)
    (o : Object) (modTime : Int) :
    (∀ n, update o.base.Path modTime = Except.ok n →
      SetModTime update o modTime =
        ({ o with base := { o.base with Modified := modTime } }, none)) ∧
    (∀ e, update o.base.Path modTime = Except.error e →
      SetModTime update o modTime = (o, some (Err.passthrough e))) := by
  refine ⟨fun n h => ?_, fun e h => ?_⟩ <;> simp [SetModTime, h]

/-- C10 witness: success and failure at concrete update oracles. -/
theorem SetModTime_frame_witness :
    SetModTime updOK sampleObject 99 =
      ({ sampleObject with base := { sampleObject.base with Modified := 99 } }, none) ∧
    SetModTime updFail sampleObject 99 =
      (sampleObject, some (Err.passthrough (ApiError.other "boom"))) :=
  ⟨(SetModTime_frame updOK sampleObject 99).1 _ rfl,
   (SetModTime_frame updFail sampleObject 99).2 _ rfl⟩

end Pixeldrain
